import Mathlib

/-!
Verification of the Stopwatch_Design program (src/Stopwatch_Design/main.c).

The program keeps its state in seven 8-bit global variables:
`counter` (EduBase display counter), `ms_elapsed` (1 ms sub-tick counter),
`milliseconds` (tenths-of-second digit), `seconds`, `minutes`, and the two
flags `start_stopwatch` and `reset_stopwatch`.  We shallow-embed these as a
`State` structure of natural numbers; every increment of an 8-bit variable
is taken modulo 256, exactly as the C `uint8_t` arithmetic does.
-/

namespace Stopwatch

/-- The global mutable state of main.c: the EduBase display counter,
the four stopwatch counters, and the two control flags (uint8 values). -/
structure State where
  counter : Nat
  ms_elapsed : Nat
  milliseconds : Nat
  seconds : Nat
  minutes : Nat
  start_stopwatch : Nat
  reset_stopwatch : Nat
  deriving DecidableEq, Repr

/-- `PMOD_BTN_Handler` from main.c (lines 107-147): the switch on
`pmod_btn_status`.  Only the flag writes touch the embedded state; the
RGB LED writes are external side effects. -/
def PMOD_BTN_Handler (pmod_btn_status : Nat) (s : State) : State :=
  match pmod_btn_status with
  | 0x04 => { s with start_stopwatch := 0x01 }
  | 0x08 => { s with start_stopwatch := 0x00 }
  | 0x10 => { s with reset_stopwatch := 0x01 }
  | _ => s

/-- `EduBase_Button_Handler` from main.c (lines 161-196): increments the
display counter on 0x08 (wrapping 15 -> 0) and decrements it on 0x04
(wrapping 0 -> 15). -/
def EduBase_Button_Handler (edubase_button_status : Nat) (s : State) : State :=
  match edubase_button_status with
  | 0x08 =>
      if s.counter ≥ 15 then { s with counter := 0 }
      else { s with counter := (s.counter + 1) % 256 }
  | 0x04 =>
      if s.counter ≤ 0 then { s with counter := 15 }
      else { s with counter := s.counter - 1 }
  | _ => s

/-- `Calculate_Stopwatch_Value` from main.c (lines 212-227): fills the
4-element digit array `[milliseconds, seconds % 10, seconds / 10, minutes]`. -/
def Calculate_Stopwatch_Value (s : State) : List Nat :=
  [s.milliseconds, s.seconds % 10, s.seconds / 10, s.minutes]

/-- `Timer_0A_Periodic_Task` from main.c (lines 243-282): the 1 ms periodic
tick.  Everything is gated on `start_stopwatch == 0x01`; then the sub-tick
counter increments and the threshold checks cascade in program order, and
the reset check runs last. -/
def Timer_0A_Periodic_Task (s : State) : State :=
  if s.start_stopwatch = 0x01 then
    let s1 := { s with ms_elapsed := (s.ms_elapsed + 1) % 256 }
    let s2 :=
      if s1.ms_elapsed > 99 then
        { s1 with ms_elapsed := 0, milliseconds := (s1.milliseconds + 1) % 256 }
      else s1
    let s3 :=
      if s2.milliseconds > 9 then
        { s2 with milliseconds := 0, seconds := (s2.seconds + 1) % 256 }
      else s2
    let s4 :=
      if s3.seconds > 59 then
        { s3 with seconds := 0, minutes := (s3.minutes + 1) % 256 }
      else s3
    let s5 :=
      if s4.minutes > 9 then { s4 with minutes := 0 } else s4
    if s5.reset_stopwatch = 0x01 then
      { s5 with reset_stopwatch := 0x00, start_stopwatch := 0x00,
                ms_elapsed := 0, milliseconds := 0, seconds := 0, minutes := 0 }
    else s5
  else s

/-- `n` consecutive invocations of the periodic tick. -/
def tickN : Nat → State → State
  | 0, s => s
  | n + 1, s => tickN n (Timer_0A_Periodic_Task s)

/-- Iterated EduBase handler calls with a fixed button code. -/
def eduN (code : Nat) : Nat → State → State
  | 0, s => s
  | n + 1, s => eduN code n (EduBase_Button_Handler code s)

/-- The all-zero initial state (all globals are initialized to 0 in main.c). -/
def initState : State :=
  { counter := 0, ms_elapsed := 0, milliseconds := 0, seconds := 0,
    minutes := 0, start_stopwatch := 0, reset_stopwatch := 0 }

/-- The data-model bounds of spec §3: all counters within range. -/
def Inv (s : State) : Prop :=
  s.ms_elapsed ≤ 99 ∧ s.milliseconds ≤ 9 ∧ s.seconds ≤ 59 ∧
  s.minutes ≤ 9 ∧ s.counter ≤ 15

instance (s : State) : Decidable (Inv s) := by
  unfold Inv; infer_instance

/-- An observable operation of the program: a periodic tick, a PMOD button
handler call, or an EduBase button handler call. -/
inductive Op where
  | tick : Op
  | pmod (code : Nat) : Op
  | edu (code : Nat) : Op

/-- Apply one operation to the state. -/
def applyOp : Op → State → State
  | Op.tick, s => Timer_0A_Periodic_Task s
  | Op.pmod c, s => PMOD_BTN_Handler c s
  | Op.edu c, s => EduBase_Button_Handler c s

/-- Run a sequence of operations from a state. -/
def run : List Op → State → State
  | [], s => s
  | o :: os, s => run os (applyOp o s)

/-! ### Helper lemmas -/

/-- When the start flag is not set, the periodic task is the identity. -/
lemma tick_not_running (s : State) (h : s.start_stopwatch ≠ 0x01) :
    Timer_0A_Periodic_Task s = s := by
  simp [Timer_0A_Periodic_Task, h]

/-- When both flags are set, the periodic task ends in the reset branch:
all four counters and both flags are cleared, only the display counter
survives. -/
lemma tick_running_reset (s : State) (h1 : s.start_stopwatch = 0x01)
    (h2 : s.reset_stopwatch = 0x01) :
    Timer_0A_Periodic_Task s =
      { counter := s.counter, ms_elapsed := 0, milliseconds := 0, seconds := 0,
        minutes := 0, start_stopwatch := 0, reset_stopwatch := 0 } := by
  simp only [Timer_0A_Periodic_Task, h1, if_pos]
  split_ifs <;> simp_all

/-- The running, reset-free state reached after `n` ticks from all-zero
counters: the counters are the base-mixed-radix digits of `n`
(100 sub-ticks per tenth, 10 tenths per second, 60 seconds per minute,
10 minutes per wrap). -/
def mkState (c n : Nat) : State :=
  { counter := c, ms_elapsed := n % 100, milliseconds := n / 100 % 10,
    seconds := n / 1000 % 60, minutes := n / 60000 % 10,
    start_stopwatch := 1, reset_stopwatch := 0 }

set_option maxHeartbeats 1600000 in
/-- One tick on a running, in-bounds state with no pending reset: the
sub-tick counter advances and the carries cascade through the digits. -/
lemma tick_digits (c a b u m rs : Nat) (h1 : a ≤ 99) (h2 : b ≤ 9) (h3 : u ≤ 59)
    (h4 : m ≤ 9) (hrs : rs ≠ 1) :
    Timer_0A_Periodic_Task ⟨c, a, b, u, m, 1, rs⟩ =
      if a < 99 then ⟨c, a + 1, b, u, m, 1, rs⟩
      else if b < 9 then ⟨c, 0, b + 1, u, m, 1, rs⟩
      else if u < 59 then ⟨c, 0, 0, u + 1, m, 1, rs⟩
      else if m < 9 then ⟨c, 0, 0, 0, m + 1, 1, rs⟩
      else ⟨c, 0, 0, 0, 0, 1, rs⟩ := by
  simp only [Timer_0A_Periodic_Task]
  norm_num
  split_ifs <;> simp_all [State.mk.injEq] <;> omega

set_option maxHeartbeats 1600000 in
/-- One tick advances the mixed-radix digit state by one sub-tick. -/
lemma tick_mkState (c n : Nat) :
    Timer_0A_Periodic_Task (mkState c n) = mkState c (n + 1) := by
  have h : mkState c n =
      (⟨c, n % 100, n / 100 % 10, n / 1000 % 60, n / 60000 % 10, 1, 0⟩ : State) := rfl
  rw [h,
    tick_digits c _ _ _ _ _ (by omega) (by omega) (by omega) (by omega) (by omega)]
  split_ifs <;> simp_all [mkState, State.mk.injEq] <;> omega

/-- `k` ticks advance the mixed-radix digit state by `k` sub-ticks. -/
lemma tickN_mkState (c n k : Nat) :
    tickN k (mkState c n) = mkState c (n + k) := by
  induction k generalizing n with
  | zero => rfl
  | succ k ih =>
      show tickN k (Timer_0A_Periodic_Task (mkState c n)) = _
      rw [tick_mkState, ih]
      congr 1
      omega

/-- Every in-bounds running state with no pending reset is a mixed-radix
digit state. -/
lemma eq_mkState (c a b u m : Nat) (h1 : a ≤ 99) (h2 : b ≤ 9) (h3 : u ≤ 59)
    (h4 : m ≤ 9) :
    (⟨c, a, b, u, m, 1, 0⟩ : State) =
      mkState c (a + 100 * b + 1000 * u + 60000 * m) := by
  simp only [mkState]
  congr 1 <;> omega

/-- The periodic task preserves the data-model bounds. -/
lemma inv_tick (s : State) (h : Inv s) : Inv (Timer_0A_Periodic_Task s) := by
  obtain ⟨c, a, b, u, m, st, rs⟩ := s
  obtain ⟨h1, h2, h3, h4, h5⟩ := h
  dsimp only at h1 h2 h3 h4 h5
  by_cases hst : st = 0x01
  · subst hst
    by_cases hrs : rs = 0x01
    · subst hrs
      rw [tick_running_reset _ rfl rfl]
      exact ⟨by simp, by simp, by simp, by simp, by simpa using h5⟩
    · rw [tick_digits c a b u m rs h1 h2 h3 h4 hrs]
      split_ifs <;> exact ⟨by simp <;> omega, by simp <;> omega, by simp <;> omega,
        by simp <;> omega, by simpa using h5⟩
  · rw [tick_not_running _ hst]
    exact ⟨h1, h2, h3, h4, h5⟩

/-- The PMOD button handler touches only the two flags, so it preserves the
data-model bounds. -/
lemma inv_pmod (s : State) (h : Inv s) (code : Nat) :
    Inv (PMOD_BTN_Handler code s) := by
  unfold PMOD_BTN_Handler
  split <;> exact h

/-- The EduBase button handler keeps the display counter within [0, 15] and
touches nothing else. -/
lemma inv_edu (s : State) (h : Inv s) (code : Nat) :
    Inv (EduBase_Button_Handler code s) := by
  obtain ⟨h1, h2, h3, h4, h5⟩ := h
  unfold EduBase_Button_Handler
  split
  · split_ifs <;> exact ⟨h1, h2, h3, h4, by simp <;> omega⟩
  · split_ifs <;> exact ⟨h1, h2, h3, h4, by simp <;> omega⟩
  · exact ⟨h1, h2, h3, h4, h5⟩

/-- Any sequence of operations preserves the data-model bounds. -/
lemma inv_run (ops : List Op) : ∀ s, Inv s → Inv (run ops s) := by
  induction ops with
  | nil => exact fun s h => h
  | cons o os ih =>
      intro s h
      cases o with
      | tick => exact ih _ (inv_tick s h)
      | pmod c => exact ih _ (inv_pmod s h c)
      | edu c => exact ih _ (inv_edu s h c)

/-! ### Claims -/

/-- C1: When the stopwatch is not running, one periodic tick leaves every
field of the state unchanged; after CODE_RESET (0x10) is issued while
stopped, the state (now carrying the reset flag) is unchanged across any
number of ticks; and the reset is applied at the first tick that executes
with the start flag set. -/
theorem C1_stopped_tick_is_noop (s : State) (h : s.start_stopwatch = 0) :
    Timer_0A_Periodic_Task s = s ∧
    (∀ n, tickN n (PMOD_BTN_Handler 0x10 s) = PMOD_BTN_Handler 0x10 s) ∧
    Timer_0A_Periodic_Task (PMOD_BTN_Handler 0x04 (PMOD_BTN_Handler 0x10 s)) =
      { counter := s.counter, ms_elapsed := 0, milliseconds := 0, seconds := 0,
        minutes := 0, start_stopwatch := 0, reset_stopwatch := 0 } := by
  have hne : s.start_stopwatch ≠ 0x01 := by omega
  have hp : (PMOD_BTN_Handler 0x10 s).start_stopwatch = s.start_stopwatch := rfl
  have hq : (PMOD_BTN_Handler 0x10 s).start_stopwatch ≠ 0x01 := by
    rw [hp]; exact hne
  refine ⟨tick_not_running s hne, ?_, ?_⟩
  · intro n
    induction n with
    | zero => rfl
    | succ n ih =>
        show tickN n (Timer_0A_Periodic_Task (PMOD_BTN_Handler 0x10 s)) = _
        rw [tick_not_running _ hq]
        exact ih
  · exact tick_running_reset (PMOD_BTN_Handler 0x04 (PMOD_BTN_Handler 0x10 s))
      rfl rfl

/-- Witness for C1 at the all-zero initial state. -/
theorem C1_witness :
    Timer_0A_Periodic_Task initState = initState ∧
    tickN 5 (PMOD_BTN_Handler 0x10 initState) = PMOD_BTN_Handler 0x10 initState ∧
    Timer_0A_Periodic_Task
        (PMOD_BTN_Handler 0x04 (PMOD_BTN_Handler 0x10 initState)) = initState := by
  obtain ⟨h1, h2, h3⟩ := C1_stopped_tick_is_noop initState rfl
  exact ⟨h1, h2 5, h3⟩

/-- C2: With the stopwatch running and no pending reset, the threshold
checks cascade within a single tick: from sub-tick 99, tenths 9, seconds
59, minutes 9, one tick rolls every counter over to zero. -/
theorem C2_single_tick_cascade (c : Nat) :
    Timer_0A_Periodic_Task
      { counter := c, ms_elapsed := 99, milliseconds := 9, seconds := 59,
        minutes := 9, start_stopwatch := 1, reset_stopwatch := 0 } =
      { counter := c, ms_elapsed := 0, milliseconds := 0, seconds := 0,
        minutes := 0, start_stopwatch := 1, reset_stopwatch := 0 } := rfl

/-- C3: With the stopwatch running and a pending reset, one tick always ends
with both flags cleared and all four counters zero, no matter the counters'
prior values: the reset check runs last and wins. -/
theorem C3_reset_check_runs_last (s : State) (h1 : s.start_stopwatch = 1)
    (h2 : s.reset_stopwatch = 1) :
    Timer_0A_Periodic_Task s =
      { counter := s.counter, ms_elapsed := 0, milliseconds := 0, seconds := 0,
        minutes := 0, start_stopwatch := 0, reset_stopwatch := 0 } :=
  tick_running_reset s h1 h2

/-- Witness for C3: a running state mid-rollover with a pending reset. -/
theorem C3_witness :
    Timer_0A_Periodic_Task
      { counter := 7, ms_elapsed := 99, milliseconds := 9, seconds := 59,
        minutes := 9, start_stopwatch := 1, reset_stopwatch := 1 } =
      { counter := 7, ms_elapsed := 0, milliseconds := 0, seconds := 0,
        minutes := 0, start_stopwatch := 0, reset_stopwatch := 0 } :=
  C3_reset_check_runs_last
    { counter := 7, ms_elapsed := 99, milliseconds := 9, seconds := 59,
      minutes := 9, start_stopwatch := 1, reset_stopwatch := 1 } rfl rfl

/-- C4: The bounds (sub-tick in [0,99], tenths in [0,9], seconds in [0,59],
minutes in [0,9], display counter in [0,15]) are preserved by every
operation — tick, PMOD handler, EduBase handler — and therefore hold at
every point reachable from the all-zero initial state. -/
theorem C4_bounds_invariant :
    (∀ s, Inv s →
      Inv (Timer_0A_Periodic_Task s) ∧
      (∀ code, Inv (PMOD_BTN_Handler code s)) ∧
      (∀ code, Inv (EduBase_Button_Handler code s))) ∧
    (∀ ops : List Op, Inv (run ops initState)) := by
  constructor
  · intro s h
    exact ⟨inv_tick s h, fun code => inv_pmod s h code,
      fun code => inv_edu s h code⟩
  · intro ops
    exact inv_run ops initState (by decide)

/-- Witness for C4 at the initial state and a small concrete trace. -/
theorem C4_witness :
    Inv (Timer_0A_Periodic_Task initState) ∧
    Inv (run [Op.pmod 0x04, Op.tick, Op.edu 0x08, Op.tick] initState) := by
  exact ⟨(C4_bounds_invariant.1 initState (by decide)).1,
    C4_bounds_invariant.2 [Op.pmod 0x04, Op.tick, Op.edu 0x08, Op.tick]⟩

/-- C5: From the all-zero state with the start flag set, the stopwatch stays
running with no reset throughout, and after exactly 600000 ticks the
minutes, seconds and tenths digits are all zero again (minutes wraps from 9
to 0 with no carry out). -/
theorem C5_full_wrap_at_600000 :
    (∀ k, (tickN k { initState with start_stopwatch := 1 }).start_stopwatch = 1 ∧
          (tickN k { initState with start_stopwatch := 1 }).reset_stopwatch = 0) ∧
    (tickN 600000 { initState with start_stopwatch := 1 }).minutes = 0 ∧
    (tickN 600000 { initState with start_stopwatch := 1 }).seconds = 0 ∧
    (tickN 600000 { initState with start_stopwatch := 1 }).milliseconds = 0 := by
  have h0 : ({ initState with start_stopwatch := 1 } : State) = mkState 0 0 := rfl
  constructor
  · intro k
    rw [h0, tickN_mkState]
    exact ⟨rfl, rfl⟩
  · rw [h0, tickN_mkState]
    refine ⟨?_, ?_, ?_⟩ <;> norm_num [mkState]

/-- C6 counterexample: from the all-zero running state, 1000 ticks do not
increment the tenths digit exactly once — it returns to its starting value
(after ten wrapping increments), while the seconds digit gains one. -/
theorem C6_counterexample :
    ¬ ((tickN 1000 { initState with start_stopwatch := 1 }).milliseconds =
        ({ initState with start_stopwatch := 1 } : State).milliseconds + 1) := by
  have h0 : ({ initState with start_stopwatch := 1 } : State) = mkState 0 0 := rfl
  rw [h0, tickN_mkState]
  norm_num [mkState]

/-- C6 (amended): over any in-bounds running state with no pending reset,
1000 consecutive ticks leave the tenths digit at its pre-cycle value (it
increments ten times, wrapping), return the sub-tick counter to its
pre-cycle value modulo 100, and increment the seconds digit exactly once
(modulo its wrap at 60). -/
theorem C6_thousand_tick_cycle (s : State) (h : Inv s)
    (hst : s.start_stopwatch = 1) (hrs : s.reset_stopwatch = 0) :
    (tickN 1000 s).milliseconds = s.milliseconds ∧
    (tickN 1000 s).ms_elapsed % 100 = s.ms_elapsed % 100 ∧
    (tickN 1000 s).seconds = (s.seconds + 1) % 60 := by
  obtain ⟨c, a, b, u, m, st, rs⟩ := s
  obtain ⟨h1, h2, h3, h4, h5⟩ := h
  dsimp only at h1 h2 h3 h4 h5 hst hrs
  subst hst hrs
  rw [eq_mkState c a b u m h1 h2 h3 h4, tickN_mkState]
  simp only [mkState]
  refine ⟨?_, ?_, ?_⟩ <;> omega

/-- Witness for C6 (amended) at the all-zero running state. -/
theorem C6_witness :
    (tickN 1000 { initState with start_stopwatch := 1 }).milliseconds =
      ({ initState with start_stopwatch := 1 } : State).milliseconds ∧
    (tickN 1000 { initState with start_stopwatch := 1 }).ms_elapsed % 100 =
      ({ initState with start_stopwatch := 1 } : State).ms_elapsed % 100 ∧
    (tickN 1000 { initState with start_stopwatch := 1 }).seconds =
      (({ initState with start_stopwatch := 1 } : State).seconds + 1) % 60 :=
  C6_thousand_tick_cycle { initState with start_stopwatch := 1 }
    (by decide) rfl rfl

/-- C7: The display counter wraps at both bounds: from 0, sixteen CODE_DEC
(0x04) presses return it to 0 (the first press lands on 15), and from 15 a
single CODE_INC (0x08) press wraps it to 0. -/
theorem C7_display_counter_wraps :
    (eduN 0x04 1 initState).counter = 15 ∧
    eduN 0x04 16 initState = initState ∧
    (EduBase_Button_Handler 0x08 { initState with counter := 15 }).counter = 0 := by
  decide

/-- C8: The value formatter is the pure projection
`[milliseconds, seconds % 10, seconds / 10, minutes]`; on
milliseconds=7, seconds=45, minutes=3 it yields [7, 5, 4, 3]; and two
consecutive calls on the same state agree. -/
theorem C8_formatter_is_pure_projection (s : State) :
    Calculate_Stopwatch_Value s =
      [s.milliseconds, s.seconds % 10, s.seconds / 10, s.minutes] ∧
    Calculate_Stopwatch_Value
      { initState with milliseconds := 7, seconds := 45, minutes := 3 } =
      [7, 5, 4, 3] ∧
    Calculate_Stopwatch_Value s = Calculate_Stopwatch_Value s :=
  ⟨rfl, by decide, rfl⟩

/-- C9: Under the data-model bounds, every entry of the digit array lies in
the single-decimal-digit range [0, 9]. -/
theorem C9_digits_single_decimal (s : State) (h2 : s.milliseconds ≤ 9)
    (h3 : s.seconds ≤ 59) (h4 : s.minutes ≤ 9) :
    ∀ d ∈ Calculate_Stopwatch_Value s, d ≤ 9 := by
  simp only [Calculate_Stopwatch_Value, List.mem_cons, List.not_mem_nil,
    or_false]
  rintro d (rfl | rfl | rfl | rfl) <;> omega

/-- Witness for C9 on the state milliseconds=7, seconds=45, minutes=3,
checking each of the four produced digits. -/
theorem C9_witness : (7 : Nat) ≤ 9 ∧ (5 : Nat) ≤ 9 ∧ (4 : Nat) ≤ 9 ∧ (3 : Nat) ≤ 9 :=
  ⟨C9_digits_single_decimal
      { initState with milliseconds := 7, seconds := 45, minutes := 3 }
      (by decide) (by decide) (by decide) 7 (by simp [Calculate_Stopwatch_Value]),
   C9_digits_single_decimal
      { initState with milliseconds := 7, seconds := 45, minutes := 3 }
      (by decide) (by decide) (by decide) 5 (by simp [Calculate_Stopwatch_Value]),
   C9_digits_single_decimal
      { initState with milliseconds := 7, seconds := 45, minutes := 3 }
      (by decide) (by decide) (by decide) 4 (by simp [Calculate_Stopwatch_Value]),
   C9_digits_single_decimal
      { initState with milliseconds := 7, seconds := 45, minutes := 3 }
      (by decide) (by decide) (by decide) 3 (by simp [Calculate_Stopwatch_Value])⟩

/-- C10: A pending reset overrides a later start: from any state, pressing
CODE_RESET (0x10) and then CODE_START (0x04) with no tick in between makes
the next tick end stopped and zeroed — both flags cleared and all four time
counters zero, the display counter untouched. -/
theorem C10_pending_reset_overrides_start (s : State) :
    Timer_0A_Periodic_Task (PMOD_BTN_Handler 0x04 (PMOD_BTN_Handler 0x10 s)) =
      { counter := s.counter, ms_elapsed := 0, milliseconds := 0, seconds := 0,
        minutes := 0, start_stopwatch := 0, reset_stopwatch := 0 } :=
  tick_running_reset (PMOD_BTN_Handler 0x04 (PMOD_BTN_Handler 0x10 s)) rfl rfl

end Stopwatch
